import Mathlib

/-!
Shallow embedding of the timeseries router of the webviz backend
(src/backend/src/fastapi_app/routers/timeseries/router.py), together with
models of the resampling and statistics services it invokes, for checking
the specification's claims.

Timestamps are modelled as integers, values as rationals, and per-point
absence as an explicit `Option`. External collaborators that are not part
of the visible source (the series store, the statistics computation) are
passed in as function parameters, so theorems quantify over every possible
store response; services whose behaviour a claim depends on but whose code
is absent are modelled from the specification and marked as such.
-/

/-- API frequency enum (`schemas.Frequency`): the grid-generating
frequencies. RAW is expressed at the API by absence (`Option Frequency`
being `none`). -/
inductive Frequency where
  | daily
  | monthly
  | yearly
deriving DecidableEq, Repr

/-- The string value of an API frequency, as serialized in the query
parameter. -/
def Frequency.value : Frequency → String
  | .daily => "DAILY"
  | .monthly => "MONTHLY"
  | .yearly => "YEARLY"

/-- Modelled from the spec: `Frequency.from_string_value` of the
summary-access service (`services.sumo_access.summary_access`, not under
src/). A recognized frequency string maps to the service frequency; any
unrecognized string (such as the router's placeholder "dummy") maps to
`none`, which the service treats as RAW: "use the series' own timestamps,
unmodified". -/
def Frequency.from_string_value (s : String) : Option Frequency :=
  if s = "DAILY" then some .daily
  else if s = "MONTHLY" then some .monthly
  else if s = "YEARLY" then some .yearly
  else none

/-- Vector metadata as carried by a fetched series (`vec.metadata`). -/
structure VectorMetadata where
  unit : String
  is_rate : Bool
deriving DecidableEq, Repr

/-- One realization's series as returned by `SummaryAccess.get_vector`. -/
structure RealizationVector where
  realization : Nat
  timestamps : List Int
  values : List Rat
  metadata : VectorMetadata
deriving DecidableEq, Repr

/-- API schema `schemas.VectorDescription`. -/
structure VectorDescription where
  name : String
  descriptive_name : String
  has_historical : Bool
deriving DecidableEq, Repr

/-- API schema `schemas.VectorRealizationData`. -/
structure VectorRealizationData where
  realization : Nat
  timestamps : List Int
  values : List Rat
  unit : String
  is_rate : Bool
deriving DecidableEq, Repr

/-- Router `get_vector_names_and_descriptions`: builds one
`VectorDescription` per vector name obtained from the series store
(`access.get_vector_names()`, passed in as the list `vector_names`), with
the descriptive name equal to the name and `has_historical` false. The two
exclude flags are accepted by the endpoint but never read in the body,
exactly as in the source. -/
def get_vector_names_and_descriptions
    (exclude_all_values_zero : Bool) (exclude_all_values_constant : Bool)
    (vector_names : List String) : List VectorDescription :=
  vector_names.map (fun vector_name =>
    { name := vector_name, descriptive_name := vector_name,
      has_historical := false })

/-- The service frequency the router computes on line 58 of the source and
passes to the store: the API value string for a given frequency, the
placeholder string "dummy" when the query gave none. -/
def router_service_frequency (resampling_frequency : Option Frequency) :
    Option Frequency :=
  Frequency.from_string_value
    (match resampling_frequency with
     | some f => f.value
     | none => "dummy")

/-- Router `get_realizations_vector_data`. The series store
(`SummaryAccess.get_vector`, not under src/) is abstracted as a function
from the service frequency (`none` meaning RAW) to the fetched
per-realization series; the case, ensemble, vector name and realization
subset of the request are absorbed into that function, since the router
forwards them verbatim. The body converts the placeholder-based frequency,
fetches, and copies each fetched series into a
`VectorRealizationData`. The `relative_to_timestamp` query parameter is
accepted but never read in the body, exactly as in the source. -/
def get_realizations_vector_data
    (get_vector : Option Frequency → List RealizationVector)
    (resampling_frequency : Option Frequency)
    (relative_to_timestamp : Option Int) : List VectorRealizationData :=
  let sumo_freq := router_service_frequency resampling_frequency
  let sumo_vec_arr := get_vector sumo_freq
  sumo_vec_arr.map (fun vec =>
    { realization := vec.realization, timestamps := vec.timestamps,
      values := vec.values, unit := vec.metadata.unit,
      is_rate := vec.metadata.is_rate })

/-- API statistic function enum (`schemas.StatisticFunction`, not under
src/). Modelled from the spec: MEAN, MIN, MAX, population STD, and the
percentile statistics P10 and P90 named by the spec. -/
inductive StatisticFunction where
  | mean
  | min
  | max
  | p10
  | p90
  | std
deriving DecidableEq, Repr

/-- Modelled from the spec: the full supported set of statistics, the set
computed when the request specifies none ("If no statistics are specified,
all supported statistics are computed"). -/
def allStatisticFunctions : List StatisticFunction :=
  [.mean, .min, .max, .p10, .p90, .std]

/-- Modelled from the spec: `converters.to_service_statistic_functions`
(converters module not under src/) — an unspecified request subset maps to
the full supported set, a given subset is passed through. -/
def to_service_statistic_functions :
    Option (List StatisticFunction) → List StatisticFunction
  | none => allStatisticFunctions
  | some funcs => funcs

/-- Service-level statistics result (`VectorStatistics` of
`services.summary_vector_statistics`, not under src/), modelled from the
spec: grid timestamps plus one value sequence per computed statistic, with
an explicit per-point undefined marker. -/
structure VectorStatistics where
  timestamps : List Int
  value_arr : List (StatisticFunction × List (Option Rat))
deriving DecidableEq, Repr

/-- API statistics payload (`schemas.VectorStatisticData`). -/
structure VectorStatisticData where
  timestamps : List Int
  value_arr : List (StatisticFunction × List (Option Rat))
  unit : String
  is_rate : Bool
deriving DecidableEq, Repr

/-- Modelled from the spec: `converters.to_api_vector_statistic_data`
(converters module not under src/) copies the computed statistics into the
API payload together with the vector metadata. -/
def to_api_vector_statistic_data (statistics : VectorStatistics)
    (vector_metadata : VectorMetadata) : VectorStatisticData :=
  { timestamps := statistics.timestamps, value_arr := statistics.value_arr,
    unit := vector_metadata.unit, is_rate := vector_metadata.is_rate }

/-- Router `get_statistical_vector_data`: converts the requested statistic
subset, invokes the statistics computation (`compute_vector_statistics`,
passed in as a function since that service is not under src/; the fetched
vector table is absorbed into it), raises HTTP 404 when the computation
returns no result, and otherwise returns the converted payload. -/
def get_statistical_vector_data
    (compute : List StatisticFunction → Option VectorStatistics)
    (vector_metadata : VectorMetadata)
    (statistic_functions : Option (List StatisticFunction)) :
    Except Nat VectorStatisticData :=
  let service_stat_funcs_to_compute :=
    to_service_statistic_functions statistic_functions
  match compute service_stat_funcs_to_compute with
  | none => Except.error 404
  | some statistics =>
      Except.ok (to_api_vector_statistic_data statistics vector_metadata)

/-- Router `get_timestamps`: the body in the source is the bare ellipsis
statement, so the endpoint computes nothing and yields no timestamp list,
whatever the stored per-realization timestamps and the query say. -/
def get_timestamps
    (stored_timestamps : List (List Int))
    (resampling_frequency : Option Frequency)
    (realizations : Option (List Nat)) : Option (List Int) :=
  none

/-- The raw-mode grid the specification claims for `get_timestamps`: the
exact intersection of the realizations' raw timestamp sets, kept in the
first realization's order. Stated from the spec's words, for contrast with
the stub above. -/
def rawIntersectionGrid (stored_timestamps : List (List Int)) : List Int :=
  match stored_timestamps with
  | [] => []
  | first :: rest =>
      first.filter (fun ts => rest.all (fun other => decide (ts ∈ other)))

/-- API schema `schemas.VectorExpressionInfo` for calculated vectors. -/
structure VectorExpressionInfo where
  expression : String
  variable_names : List String
  vector_names : List String
deriving DecidableEq, Repr

/-- Router `get_realizations_calculated_vector_data`: the source prints the
expression object and returns the constant string "hei" — no fetching, no
evaluated per-realization data. -/
def get_realizations_calculated_vector_data
    (expression : VectorExpressionInfo)
    (resampling_frequency : Option Frequency)
    (relative_to_timestamp : Option Int) : String :=
  "hei"

/-- Modelled from the spec: the raw point used by rate (step-hold)
resampling — the last raw point at or before the grid timestamp. The
Resampler service is not under src/; this follows the spec's words for
rate quantities. -/
def lastRawAtOrBefore (raw : List (Int × Rat)) (ts : Int) :
    Option (Int × Rat) :=
  (raw.filter (fun p => decide (p.1 ≤ ts))).getLast?

/-- Modelled from the spec: rate-quantity resampling at one grid timestamp
(previous-value-hold) — the value of the last raw point at or before the
grid timestamp, absent when no raw point lies at or before it. -/
def resampleRateAt (raw : List (Int × Rat)) (ts : Int) : Option Rat :=
  (lastRawAtOrBefore raw ts).map Prod.snd

/-- The placeholder string used by the router maps to no service frequency,
i.e. to RAW mode. -/
theorem from_string_value_dummy : Frequency.from_string_value "dummy" = none := by
  decide

/-- In a list strictly sorted by first component, an element whose first
component bounds every element's first component is the last element. -/
theorem getLast?_eq_of_mem_of_max (l : List (Int × Rat)) (a : Int × Rat)
    (hs : l.Pairwise (fun p q => p.1 < q.1)) (ha : a ∈ l)
    (hmax : ∀ b ∈ l, b.1 ≤ a.1) : l.getLast? = some a := by
  induction l with
  | nil => cases ha
  | cons x xs ih =>
    cases xs with
    | nil =>
      have hax : a = x := by simpa using ha
      simp [hax]
    | cons y ys =>
      rw [List.getLast?_cons_cons]
      have hs' := (List.pairwise_cons.mp hs).2
      have hxlt : x.1 < y.1 := (List.pairwise_cons.mp hs).1 y (by simp)
      have hamem : a ∈ y :: ys := by
        rcases ha with _ | h
        · exact absurd (hmax y (by simp)) (by omega)
        · assumption
      exact ih hs' hamem (fun b hb => hmax b (List.mem_cons_of_mem x hb))

/-- Claim C1: a statistics request whose computation yields no result is
reported as HTTP 404 and never as an empty-but-successful payload —
`get_statistical_vector_data` returns the 404 error exactly when
`compute_vector_statistics` returns a falsy value. -/
theorem statistical_vector_data_404_iff_no_statistics
    (compute : List StatisticFunction → Option VectorStatistics)
    (vector_metadata : VectorMetadata)
    (statistic_functions : Option (List StatisticFunction)) :
    get_statistical_vector_data compute vector_metadata statistic_functions
        = Except.error 404 ↔
      compute (to_service_statistic_functions statistic_functions) = none := by
  unfold get_statistical_vector_data
  cases h : compute (to_service_statistic_functions statistic_functions) <;>
    simp [h]

/-- Claim C2: with no resampling frequency specified, the router's string
placeholder maps to no service frequency, so the store fetch is performed
in RAW mode (`none`), and the fetched series are returned with their own
timestamps and values unmodified. -/
theorem realizations_vector_data_raw_when_no_frequency
    (get_vector : Option Frequency → List RealizationVector)
    (relative_to_timestamp : Option Int) :
    router_service_frequency none = none ∧
    get_realizations_vector_data get_vector none relative_to_timestamp =
      (get_vector none).map (fun vec =>
        { realization := vec.realization, timestamps := vec.timestamps,
          values := vec.values, unit := vec.metadata.unit,
          is_rate := vec.metadata.is_rate }) := by
  constructor
  · exact from_string_value_dummy
  · simp [get_realizations_vector_data, router_service_frequency,
      from_string_value_dummy]

/-- Claim C3, evaluation at the failing input: for a store holding one rate
realization with raw points (0, 5) and (1, 7) and a request with
`relative_to_timestamp = 0`, the router returns the values [5, 7]
unchanged, whereas subtracting the baseline value 5 at timestamp 0 would
give [0, 2] — the parameter is accepted but never read. -/
theorem relative_to_timestamp_ignored_at_failing_input :
    (get_realizations_vector_data
        (fun _ => [{ realization := 0, timestamps := [0, 1],
                     values := [5, 7],
                     metadata := { unit := "SM3", is_rate := true } }])
        none (some 0)).map (fun d => d.values) = [[5, 7]] ∧
      ([[(5 : Rat), 7]] : List (List Rat)) ≠ [[0, 2]] := by
  constructor
  · simp [get_realizations_vector_data, router_service_frequency,
      from_string_value_dummy]
  · decide

/-- Claim C4, evaluation at the failing input: for stored raw timestamps
{1,2,3} and {2,3,4} in RAW mode the endpoint yields no timestamp list at
all (its body is the bare ellipsis), whereas the claimed intersection grid
is [2, 3]. -/
theorem get_timestamps_stub_at_failing_input :
    get_timestamps [[1, 2, 3], [2, 3, 4]] none none = none ∧
    rawIntersectionGrid [[1, 2, 3], [2, 3, 4]] = [2, 3] ∧
    (none : Option (List Int)) ≠ some [2, 3] := by
  refine ⟨rfl, by decide, by decide⟩

/-- Claim C5, evaluation at the failing input: for any calculated-vector
request — here the expression A / B over two named vectors — the endpoint
returns the constant string "hei" instead of per-realization evaluated
data. -/
theorem calculated_vector_data_stub_at_failing_input :
    get_realizations_calculated_vector_data
        { expression := "A / B", variable_names := ["A", "B"],
          vector_names := ["FOPR", "FOPT"] } none none = "hei" := by
  rfl

/-- Claim C6: with `statistic_functions` unspecified, the set of statistic
functions passed to the statistics computation is the full supported set —
`allStatisticFunctions` contains every statistic, the converter maps
`none` to it, and the router invokes the computation on exactly that
set. -/
theorem unspecified_statistics_compute_all
    (compute : List StatisticFunction → Option VectorStatistics)
    (vector_metadata : VectorMetadata) :
    (∀ f : StatisticFunction, f ∈ allStatisticFunctions) ∧
    to_service_statistic_functions none = allStatisticFunctions ∧
    get_statistical_vector_data compute vector_metadata none =
      (match compute allStatisticFunctions with
       | none => Except.error 404
       | some statistics =>
           Except.ok (to_api_vector_statistic_data statistics vector_metadata)) := by
  refine ⟨fun f => ?_, rfl, rfl⟩
  cases f <;> decide

/-- Claim C8: the returned descriptions are exactly one per store-supplied
vector name in the same order, each with `descriptive_name` equal to its
`name` and `has_historical` false. -/
theorem vector_descriptions_mirror_store_names
    (exclude_all_values_zero exclude_all_values_constant : Bool)
    (vector_names : List String) :
    get_vector_names_and_descriptions exclude_all_values_zero
        exclude_all_values_constant vector_names =
      vector_names.map (fun vector_name =>
        { name := vector_name, descriptive_name := vector_name,
          has_historical := false }) ∧
    (get_vector_names_and_descriptions exclude_all_values_zero
        exclude_all_values_constant vector_names).length =
      vector_names.length ∧
    ∀ d ∈ get_vector_names_and_descriptions exclude_all_values_zero
        exclude_all_values_constant vector_names,
      d.descriptive_name = d.name ∧ d.has_historical = false := by
  refine ⟨rfl, by simp [get_vector_names_and_descriptions], ?_⟩
  intro d hd
  simp only [get_vector_names_and_descriptions, List.mem_map] at hd
  obtain ⟨n, _, rfl⟩ := hd
  exact ⟨rfl, rfl⟩

/-- Claim C9: the two exclude flags have no effect on the output of
`get_vector_names_and_descriptions` — any two calls differing only in the
flags return identical lists. -/
theorem exclude_flags_have_no_effect
    (z1 c1 z2 c2 : Bool) (vector_names : List String) :
    get_vector_names_and_descriptions z1 c1 vector_names =
      get_vector_names_and_descriptions z2 c2 vector_names := rfl

/-- Claim C10: `get_realizations_vector_data` returns exactly one
`VectorRealizationData` per fetched series, in the same order, with the
realization id, timestamps, values, unit and is_rate flag copied unchanged
from the fetched series. -/
theorem realizations_vector_data_copies_each_series
    (get_vector : Option Frequency → List RealizationVector)
    (resampling_frequency : Option Frequency)
    (relative_to_timestamp : Option Int) :
    (get_realizations_vector_data get_vector resampling_frequency
        relative_to_timestamp).length =
      (get_vector (router_service_frequency resampling_frequency)).length ∧
    ∀ i : Fin (get_vector (router_service_frequency resampling_frequency)).length,
      (get_realizations_vector_data get_vector resampling_frequency
          relative_to_timestamp)[i.1]? =
        some { realization :=
                 ((get_vector (router_service_frequency resampling_frequency)).get i).realization,
               timestamps :=
                 ((get_vector (router_service_frequency resampling_frequency)).get i).timestamps,
               values :=
                 ((get_vector (router_service_frequency resampling_frequency)).get i).values,
               unit :=
                 ((get_vector (router_service_frequency resampling_frequency)).get i).metadata.unit,
               is_rate :=
                 ((get_vector (router_service_frequency resampling_frequency)).get i).metadata.is_rate } := by
  constructor
  · simp [get_realizations_vector_data]
  · intro i
    simp [get_realizations_vector_data, List.getElem?_map,
      List.getElem?_eq_getElem i.isLt]

/-- Claim C7: for a rate series with at least one raw point and strictly
increasing raw timestamps, the resampled value at a grid timestamp
strictly before the first raw point is absent, and at any grid timestamp
covered by a raw point it equals the value of the last raw point at or
before that timestamp (previous-value-hold). -/
theorem rate_resampling_step_hold (raw : List (Int × Rat)) (ts t0 : Int)
    (v0 : Rat)
    (hsort : raw.Pairwise (fun p q => p.1 < q.1))
    (hhead : raw.head? = some (t0, v0)) :
    (ts < t0 → resampleRateAt raw ts = none) ∧
    (∀ t v, (t, v) ∈ raw → t ≤ ts →
      (∀ q ∈ raw, q.1 ≤ ts → q.1 ≤ t) →
      resampleRateAt raw ts = some v) := by
  obtain ⟨rest, rfl⟩ : ∃ rest, raw = (t0, v0) :: rest := by
    cases raw with
    | nil => simp at hhead
    | cons x xs =>
      simp only [List.head?_cons, Option.some.injEq] at hhead
      exact ⟨xs, by rw [hhead]⟩
  constructor
  · intro hts
    have hfirst := (List.pairwise_cons.mp hsort).1
    have hnil : ((t0, v0) :: rest).filter (fun p => decide (p.1 ≤ ts)) = [] := by
      rw [List.filter_eq_nil_iff]
      intro b hb
      simp only [decide_eq_true_eq]
      rcases List.mem_cons.mp hb with rfl | hb'
      · show ¬ t0 ≤ ts
        omega
      · have hlt : t0 < b.1 := hfirst b hb'
        omega
    simp [resampleRateAt, lastRawAtOrBefore, hnil]
  · intro t v hmem hle hmax
    have hfmem : (t, v) ∈ ((t0, v0) :: rest).filter (fun p => decide (p.1 ≤ ts)) := by
      rw [List.mem_filter]
      exact ⟨hmem, by simpa using hle⟩
    have hfsort : (((t0, v0) :: rest).filter (fun p => decide (p.1 ≤ ts))).Pairwise
        (fun p q => p.1 < q.1) := hsort.filter _
    have hfmax : ∀ b ∈ ((t0, v0) :: rest).filter (fun p => decide (p.1 ≤ ts)),
        b.1 ≤ (t, v).1 := by
      intro b hb
      rw [List.mem_filter] at hb
      exact hmax b hb.1 (by simpa using hb.2)
    have := getLast?_eq_of_mem_of_max _ (t, v) hfsort hfmem hfmax
    simp [resampleRateAt, lastRawAtOrBefore, this]

/-- Witness for the rate step-hold theorem at a concrete input: raw points
(0, 1) and (10, 2); at grid timestamp 5 the value is 1 (held from the
point at 0), at grid timestamp -1 it is absent. -/
theorem rate_resampling_step_hold_witness :
    resampleRateAt [((0 : Int), (1 : Rat)), (10, 2)] 5 = some 1 ∧
    resampleRateAt [((0 : Int), (1 : Rat)), (10, 2)] (-1) = none := by
  constructor
  · exact (rate_resampling_step_hold [((0 : Int), (1 : Rat)), (10, 2)] 5 0 1
      (by decide) rfl).2 0 1 (by decide) (by decide) (by decide)
  · exact (rate_resampling_step_hold [((0 : Int), (1 : Rat)), (10, 2)] (-1) 0 1
      (by decide) rfl).1 (by decide)
